import Mathlib

set_option maxHeartbeats 1000000

/-!
Shallow embedding of `plugins/modules/ibm_svc_info.py` from the
`ibm.spectrum_virtualize` Ansible collection.

The module is a thin dispatcher: it expands the `gather_subset` parameter
(empty or containing `"all"` expands to a fixed list of 15 category labels),
then for each requested category calls one fixed read-only REST command via
`self.restapi.svc_obj_info(cmd=...)`, and finally calls `exit_json` with the
15 collected result lists.  A failing query calls `fail_json` with a tuple
`(format_string, clustername, str(e))` and aborts the run.

The REST client is abstracted as an `Oracle` mapping a command name to
either a record list or an error text (a raised exception).  `fail_json`
aborts execution, so the run of `apply` is modelled as an `Except` value
together with the ordered trace of commands actually issued to the client.
-/

/-- The 15 recognized category labels of `gather_subset` (the `"all"`
wildcard is handled separately by the expansion step). -/
inductive Category where
  | vol | pool | node | iog | host | hc | fc | fcport | targetportfc
  | iscsiport | fcmap | fcconsistgrp | vdiskcopy | array | system
  deriving DecidableEq

/-- One record returned by the REST client: an opaque mapping from field
name to value. -/
abbrev SVCRecord := List (String × String)

/-- The REST client (`IBMSVCRestApi.svc_obj_info`): given a command name it
either returns a list of records or raises an exception with some text. -/
abbrev Oracle := String → Except String (List SVCRecord)

/-- The value passed to `fail_json(msg=...)` on a query failure.  In the
source the `msg` is literally the tuple
`('Get ... from array %s failed with error %s ', clustername, str(e))`
(the `%` formatting is never applied), so it is modelled as the triple of
the format string and the two arguments. -/
structure FailMsg where
  fmt : String
  arg1 : String
  arg2 : String
  deriving DecidableEq

/-- The aggregate report: exactly the keyword arguments of the final
`exit_json` call, in source order. -/
structure Report where
  Volumes : List SVCRecord
  Pools : List SVCRecord
  Nodes : List SVCRecord
  IOGroup : List SVCRecord
  Hosts : List SVCRecord
  HostClusters : List SVCRecord
  FCConnectivity : List SVCRecord
  FCConsistgrp : List SVCRecord
  VdiskCopy : List SVCRecord
  FCPorts : List SVCRecord
  TargetPortFC : List SVCRecord
  iSCSIPorts : List SVCRecord
  FCMaps : List SVCRecord
  Array : List SVCRecord
  System : List SVCRecord
  deriving DecidableEq

/-- The local variables `vol = [] ... system = []` initialized before the
dispatch chain: every field starts as the empty sequence. -/
def initReport : Report :=
  { Volumes := [], Pools := [], Nodes := [], IOGroup := [], Hosts := []
    HostClusters := [], FCConnectivity := [], FCConsistgrp := []
    VdiskCopy := [], FCPorts := [], TargetPortFC := [], iSCSIPorts := []
    FCMaps := [], Array := [], System := [] }

/-- The report field that stores a given category's query result. -/
def Report.field (r : Report) (c : Category) : List SVCRecord :=
  match c with
  | .vol => r.Volumes
  | .pool => r.Pools
  | .node => r.Nodes
  | .iog => r.IOGroup
  | .host => r.Hosts
  | .hc => r.HostClusters
  | .fc => r.FCConnectivity
  | .fcport => r.FCPorts
  | .targetportfc => r.TargetPortFC
  | .iscsiport => r.iSCSIPorts
  | .fcmap => r.FCMaps
  | .fcconsistgrp => r.FCConsistgrp
  | .vdiskcopy => r.VdiskCopy
  | .array => r.Array
  | .system => r.System

/-- Assignment of one category's local variable in `apply`. -/
def setField (c : Category) (r : Report) (xs : List SVCRecord) : Report :=
  match c with
  | .vol => { r with Volumes := xs }
  | .pool => { r with Pools := xs }
  | .node => { r with Nodes := xs }
  | .iog => { r with IOGroup := xs }
  | .host => { r with Hosts := xs }
  | .hc => { r with HostClusters := xs }
  | .fc => { r with FCConnectivity := xs }
  | .fcport => { r with FCPorts := xs }
  | .targetportfc => { r with TargetPortFC := xs }
  | .iscsiport => { r with iSCSIPorts := xs }
  | .fcmap => { r with FCMaps := xs }
  | .fcconsistgrp => { r with FCConsistgrp := xs }
  | .vdiskcopy => { r with VdiskCopy := xs }
  | .array => { r with Array := xs }
  | .system => { r with System := xs }

/-- The `gather_subset` label of each category (the strings of the module's
`choices` list). -/
def labelOf (c : Category) : String :=
  match c with
  | .vol => "vol"
  | .pool => "pool"
  | .node => "node"
  | .iog => "iog"
  | .host => "host"
  | .hc => "hc"
  | .fc => "fc"
  | .fcport => "fcport"
  | .targetportfc => "targetportfc"
  | .iscsiport => "iscsiport"
  | .fcmap => "fcmap"
  | .fcconsistgrp => "fcconsistgrp"
  | .vdiskcopy => "vdiskcopy"
  | .array => "array"
  | .system => "system"

/-- The CLI command each category's getter passes to `svc_obj_info`. -/
def commandOf (c : Category) : String :=
  match c with
  | .vol => "lsvdisk"
  | .pool => "lsmdiskgrp"
  | .node => "lsnode"
  | .iog => "lsiogrp"
  | .host => "lshost"
  | .hc => "lshostcluster"
  | .fc => "lsfabric"
  | .fcport => "lsportfc"
  | .targetportfc => "lstargetportfc"
  | .iscsiport => "lsportip"
  | .fcmap => "lsfcmap"
  | .fcconsistgrp => "lsfcconsistgrp"
  | .vdiskcopy => "lsvdiskcopy"
  | .array => "lsarray"
  | .system => "lssystem"

/-- The format string of the error message each getter builds on failure,
verbatim from the source. -/
def errMsgFmt (c : Category) : String :=
  match c with
  | .vol => "Get Volumes from array %s failed with error %s "
  | .pool => "Get Pools from array %s failed with error %s "
  | .node => "Get Nodes from array %s failed with error %s "
  | .iog => "Get IO Groups from array %s failed with error %s "
  | .host => "Get Hosts from array %s failed with error %s "
  | .hc => "Get Host Cluster from array %s failed with error %s "
  | .fc => "Get FC Connectivity from array %s failed with error %s "
  | .fcport => "Get fc ports from array %s failed with error %s "
  | .targetportfc => "Get target port fc from array %s failed with error %s "
  | .iscsiport => "Get iscsi ports from array %s failed with error %s "
  | .fcmap => "Get fc maps from array %s failed with error %s "
  | .fcconsistgrp => "Get fcconsistgrp info from array %s failed with error %s "
  | .vdiskcopy => "Get vdiskcopy info from array %s failed with error %s "
  | .array => "Get Array info from array %s failed with error %s "
  | .system => "Get System info from array %s failed with error %s "

/-- The human-readable name of each category, as it appears inside that
category's error-message format string. -/
def displayName (c : Category) : String :=
  match c with
  | .vol => "Volumes"
  | .pool => "Pools"
  | .node => "Nodes"
  | .iog => "IO Groups"
  | .host => "Hosts"
  | .hc => "Host Cluster"
  | .fc => "FC Connectivity"
  | .fcport => "fc ports"
  | .targetportfc => "target port fc"
  | .iscsiport => "iscsi ports"
  | .fcmap => "fc maps"
  | .fcconsistgrp => "fcconsistgrp"
  | .vdiskcopy => "vdiskcopy"
  | .array => "Array info"
  | .system => "System info"

/-- Partial inverse of `commandOf`, witnessing its injectivity. -/
def catOfCmd (s : String) : Option Category :=
  if s = "lsvdisk" then some .vol
  else if s = "lsmdiskgrp" then some .pool
  else if s = "lsnode" then some .node
  else if s = "lsiogrp" then some .iog
  else if s = "lshost" then some .host
  else if s = "lshostcluster" then some .hc
  else if s = "lsfabric" then some .fc
  else if s = "lsportfc" then some .fcport
  else if s = "lstargetportfc" then some .targetportfc
  else if s = "lsportip" then some .iscsiport
  else if s = "lsfcmap" then some .fcmap
  else if s = "lsfcconsistgrp" then some .fcconsistgrp
  else if s = "lsvdiskcopy" then some .vdiskcopy
  else if s = "lsarray" then some .array
  else if s = "lssystem" then some .system
  else none

/-- Partial inverse of `labelOf`, witnessing its injectivity. -/
def catOfLabel (s : String) : Option Category :=
  if s = "vol" then some .vol
  else if s = "pool" then some .pool
  else if s = "node" then some .node
  else if s = "iog" then some .iog
  else if s = "host" then some .host
  else if s = "hc" then some .hc
  else if s = "fc" then some .fc
  else if s = "fcport" then some .fcport
  else if s = "targetportfc" then some .targetportfc
  else if s = "iscsiport" then some .iscsiport
  else if s = "fcmap" then some .fcmap
  else if s = "fcconsistgrp" then some .fcconsistgrp
  else if s = "vdiskcopy" then some .vdiskcopy
  else if s = "array" then some .array
  else if s = "system" then some .system
  else none

/-- Partial inverse of `displayName`, witnessing its injectivity. -/
def catOfName (s : String) : Option Category :=
  if s = "Volumes" then some .vol
  else if s = "Pools" then some .pool
  else if s = "Nodes" then some .node
  else if s = "IO Groups" then some .iog
  else if s = "Hosts" then some .host
  else if s = "Host Cluster" then some .hc
  else if s = "FC Connectivity" then some .fc
  else if s = "fc ports" then some .fcport
  else if s = "target port fc" then some .targetportfc
  else if s = "iscsi ports" then some .iscsiport
  else if s = "fc maps" then some .fcmap
  else if s = "fcconsistgrp" then some .fcconsistgrp
  else if s = "vdiskcopy" then some .vdiskcopy
  else if s = "Array info" then some .array
  else if s = "System info" then some .system
  else none

namespace IBMSVCGatherInfo

/-- `get_volumes_list`: `lsvdisk`, wrapped in the module's uniform
try/except that turns an exception into a `fail_json` message. -/
def get_volumes_list (restapi : Oracle) (clustername : String) :
    Except FailMsg (List SVCRecord) :=
  match restapi "lsvdisk" with
  | Except.ok vols => Except.ok vols
  | Except.error e =>
    Except.error { fmt := "Get Volumes from array %s failed with error %s "
                   arg1 := clustername, arg2 := e }

/-- `get_pools_list`: `lsmdiskgrp`. -/
def get_pools_list (restapi : Oracle) (clustername : String) :
    Except FailMsg (List SVCRecord) :=
  match restapi "lsmdiskgrp" with
  | Except.ok pools => Except.ok pools
  | Except.error e =>
    Except.error { fmt := "Get Pools from array %s failed with error %s "
                   arg1 := clustername, arg2 := e }

/-- `get_nodes_list`: `lsnode`. -/
def get_nodes_list (restapi : Oracle) (clustername : String) :
    Except FailMsg (List SVCRecord) :=
  match restapi "lsnode" with
  | Except.ok nodes => Except.ok nodes
  | Except.error e =>
    Except.error { fmt := "Get Nodes from array %s failed with error %s "
                   arg1 := clustername, arg2 := e }

/-- `get_hosts_list`: `lshost`. -/
def get_hosts_list (restapi : Oracle) (clustername : String) :
    Except FailMsg (List SVCRecord) :=
  match restapi "lshost" with
  | Except.ok hosts => Except.ok hosts
  | Except.error e =>
    Except.error { fmt := "Get Hosts from array %s failed with error %s "
                   arg1 := clustername, arg2 := e }

/-- `get_iogroups_list`: `lsiogrp`. -/
def get_iogroups_list (restapi : Oracle) (clustername : String) :
    Except FailMsg (List SVCRecord) :=
  match restapi "lsiogrp" with
  | Except.ok iogrps => Except.ok iogrps
  | Except.error e =>
    Except.error { fmt := "Get IO Groups from array %s failed with error %s "
                   arg1 := clustername, arg2 := e }

/-- `get_host_clusters_list`: `lshostcluster`. -/
def get_host_clusters_list (restapi : Oracle) (clustername : String) :
    Except FailMsg (List SVCRecord) :=
  match restapi "lshostcluster" with
  | Except.ok hcs => Except.ok hcs
  | Except.error e =>
    Except.error { fmt := "Get Host Cluster from array %s failed with error %s "
                   arg1 := clustername, arg2 := e }

/-- `get_fc_connectivity_list`: `lsfabric`. -/
def get_fc_connectivity_list (restapi : Oracle) (clustername : String) :
    Except FailMsg (List SVCRecord) :=
  match restapi "lsfabric" with
  | Except.ok fc => Except.ok fc
  | Except.error e =>
    Except.error { fmt := "Get FC Connectivity from array %s failed with error %s "
                   arg1 := clustername, arg2 := e }

/-- `get_fc_ports_list`: `lsportfc`. -/
def get_fc_ports_list (restapi : Oracle) (clustername : String) :
    Except FailMsg (List SVCRecord) :=
  match restapi "lsportfc" with
  | Except.ok fcports => Except.ok fcports
  | Except.error e =>
    Except.error { fmt := "Get fc ports from array %s failed with error %s "
                   arg1 := clustername, arg2 := e }

/-- `get_target_port_fc_list`: `lstargetportfc`. -/
def get_target_port_fc_list (restapi : Oracle) (clustername : String) :
    Except FailMsg (List SVCRecord) :=
  match restapi "lstargetportfc" with
  | Except.ok targetportfc => Except.ok targetportfc
  | Except.error e =>
    Except.error { fmt := "Get target port fc from array %s failed with error %s "
                   arg1 := clustername, arg2 := e }

/-- `get_iscsi_ports_list`: `lsportip`. -/
def get_iscsi_ports_list (restapi : Oracle) (clustername : String) :
    Except FailMsg (List SVCRecord) :=
  match restapi "lsportip" with
  | Except.ok ipports => Except.ok ipports
  | Except.error e =>
    Except.error { fmt := "Get iscsi ports from array %s failed with error %s "
                   arg1 := clustername, arg2 := e }

/-- `get_fc_map_list`: `lsfcmap`. -/
def get_fc_map_list (restapi : Oracle) (clustername : String) :
    Except FailMsg (List SVCRecord) :=
  match restapi "lsfcmap" with
  | Except.ok fcmaps => Except.ok fcmaps
  | Except.error e =>
    Except.error { fmt := "Get fc maps from array %s failed with error %s "
                   arg1 := clustername, arg2 := e }

/-- `get_fcconsistgrp_list`: `lsfcconsistgrp`. -/
def get_fcconsistgrp_list (restapi : Oracle) (clustername : String) :
    Except FailMsg (List SVCRecord) :=
  match restapi "lsfcconsistgrp" with
  | Except.ok fcconsistgrp => Except.ok fcconsistgrp
  | Except.error e =>
    Except.error { fmt := "Get fcconsistgrp info from array %s failed with error %s "
                   arg1 := clustername, arg2 := e }

/-- `get_vdiskcopy_list`: `lsvdiskcopy`. -/
def get_vdiskcopy_list (restapi : Oracle) (clustername : String) :
    Except FailMsg (List SVCRecord) :=
  match restapi "lsvdiskcopy" with
  | Except.ok vdiskcopy => Except.ok vdiskcopy
  | Except.error e =>
    Except.error { fmt := "Get vdiskcopy info from array %s failed with error %s "
                   arg1 := clustername, arg2 := e }

/-- `get_array_list`: `lsarray`. -/
def get_array_list (restapi : Oracle) (clustername : String) :
    Except FailMsg (List SVCRecord) :=
  match restapi "lsarray" with
  | Except.ok array => Except.ok array
  | Except.error e =>
    Except.error { fmt := "Get Array info from array %s failed with error %s "
                   arg1 := clustername, arg2 := e }

/-- `get_system_list`: `lssystem`. -/
def get_system_list (restapi : Oracle) (clustername : String) :
    Except FailMsg (List SVCRecord) :=
  match restapi "lssystem" with
  | Except.ok system => Except.ok system
  | Except.error e =>
    Except.error { fmt := "Get System info from array %s failed with error %s "
                   arg1 := clustername, arg2 := e }

/-- Dispatch from a category to the getter method `apply` calls for it. -/
def getCategoryList (c : Category) (restapi : Oracle) (clustername : String) :
    Except FailMsg (List SVCRecord) :=
  match c with
  | .vol => get_volumes_list restapi clustername
  | .pool => get_pools_list restapi clustername
  | .node => get_nodes_list restapi clustername
  | .iog => get_iogroups_list restapi clustername
  | .host => get_hosts_list restapi clustername
  | .hc => get_host_clusters_list restapi clustername
  | .fc => get_fc_connectivity_list restapi clustername
  | .fcport => get_fc_ports_list restapi clustername
  | .targetportfc => get_target_port_fc_list restapi clustername
  | .iscsiport => get_iscsi_ports_list restapi clustername
  | .fcmap => get_fc_map_list restapi clustername
  | .fcconsistgrp => get_fcconsistgrp_list restapi clustername
  | .vdiskcopy => get_vdiskcopy_list restapi clustername
  | .array => get_array_list restapi clustername
  | .system => get_system_list restapi clustername

/-- The expansion list assigned to `subset` when `gather_subset` is empty or
contains `'all'` (lines 402-404 of the source, in source order). -/
def fullLabels : List String :=
  ["vol", "pool", "node", "iog", "host", "hc", "fc",
   "fcport", "iscsiport", "fcmap", "fcconsistgrp",
   "vdiskcopy", "targetportfc", "array", "system"]

/-- The order of the `if 'x' in subset:` dispatch chain in `apply`
(lines 422-451): note `targetportfc` is tested before `fcport`. -/
def chainOrder : List Category :=
  [.vol, .pool, .node, .iog, .host, .hc, .fc, .targetportfc, .fcport,
   .iscsiport, .fcmap, .fcconsistgrp, .vdiskcopy, .array, .system]

/-- The subset expansion at the top of `apply`:
`if len(subset) == 0 or 'all' in subset: subset = [...]`. -/
def expandSubset (subset : List String) : List String :=
  if subset.length = 0 ∨ "all" ∈ subset then fullLabels else subset

/-- The dispatch chain of `apply`, run over a list of categories: each
category whose label is in `subset` has its getter invoked (recording the
issued command in the trace) and its local variable assigned; a failing
getter calls `fail_json`, which aborts the run with that message. -/
def runChain (subset : List String) (restapi : Oracle) (clustername : String) :
    List Category → Report → List String × Except FailMsg Report
  | [], r => ([], Except.ok r)
  | c :: rest, r =>
    if labelOf c ∈ subset then
      match getCategoryList c restapi clustername with
      | Except.ok xs =>
        let res := runChain subset restapi clustername rest (setField c r xs)
        (commandOf c :: res.1, res.2)
      | Except.error m => ([commandOf c], Except.error m)
    else
      runChain subset restapi clustername rest r

/-- `IBMSVCGatherInfo.apply`: expand the subset, run the dispatch chain
from the all-empty local variables, and either `exit_json` the aggregate
report (`Except.ok`) or `fail_json` the first failure (`Except.error`).
The first component is the ordered trace of commands issued to the REST
client. -/
def apply (subset : List String) (restapi : Oracle) (clustername : String) :
    List String × Except FailMsg Report :=
  runChain (expandSubset subset) restapi clustername chainOrder initReport

end IBMSVCGatherInfo

/-- The module parameters relevant to the run: `name` and `state` are
accepted (and `name` stored as `self.name`) but never used by `apply`;
`clustername` feeds the REST client and the error messages;
`gather_subset` drives the dispatch. -/
structure ModuleParams where
  name : String
  state : String
  clustername : String
  gather_subset : List String

/-- A whole module run: `apply` with the parameters' subset and cluster
name against the REST client. -/
def runModule (p : ModuleParams) (restapi : Oracle) :
    List String × Except FailMsg Report :=
  IBMSVCGatherInfo.apply p.gather_subset restapi p.clustername

/-- The field names of the final `exit_json` call, in source order. -/
def reportFieldNames : List String :=
  ["Volumes", "Pools", "Nodes", "IOGroup", "Hosts", "HostClusters",
   "FCConnectivity", "FCConsistgrp", "VdiskCopy", "FCPorts",
   "TargetPortFC", "iSCSIPorts", "FCMaps", "Array", "System"]

/-- The keyword arguments of the final `exit_json` call, in source order. -/
def Report.toFields (r : Report) : List (String × List SVCRecord) :=
  [("Volumes", r.Volumes), ("Pools", r.Pools), ("Nodes", r.Nodes),
   ("IOGroup", r.IOGroup), ("Hosts", r.Hosts),
   ("HostClusters", r.HostClusters), ("FCConnectivity", r.FCConnectivity),
   ("FCConsistgrp", r.FCConsistgrp), ("VdiskCopy", r.VdiskCopy),
   ("FCPorts", r.FCPorts), ("TargetPortFC", r.TargetPortFC),
   ("iSCSIPorts", r.iSCSIPorts), ("FCMaps", r.FCMaps),
   ("Array", r.Array), ("System", r.System)]

/-- An oracle whose every query succeeds with no records. -/
def okOracle : Oracle := fun _ => Except.ok []

/-- An oracle whose every query succeeds with one record. -/
def oneRecOracle : Oracle := fun _ => Except.ok [[("id", "1")]]

/-- An oracle for which exactly the `lsnode` query raises. -/
def nodeFailOracle : Oracle := fun cmd =>
  if cmd = "lsnode" then Except.error "boom" else Except.ok []

/-- The message tuple the getter for nodes builds for cluster `"cluster"`
and error text `"boom"`. -/
def nodeBoomMsg : FailMsg :=
  { fmt := errMsgFmt Category.node, arg1 := "cluster", arg2 := "boom" }

section Lemmas

open IBMSVCGatherInfo

variable (o : Oracle) (cl : String)

/-- Every getter is the uniform try/except around its category's command. -/
theorem getCategoryList_eq (c : Category) :
    getCategoryList c o cl =
      match o (commandOf c) with
      | Except.ok xs => Except.ok xs
      | Except.error e =>
        Except.error { fmt := errMsgFmt c, arg1 := cl, arg2 := e } := by
  cases c <;> rfl

theorem getCategoryList_ok {c : Category} {xs : List SVCRecord}
    (h : o (commandOf c) = Except.ok xs) :
    getCategoryList c o cl = Except.ok xs := by
  rw [getCategoryList_eq, h]

theorem getCategoryList_err {c : Category} {e : String}
    (h : o (commandOf c) = Except.error e) :
    getCategoryList c o cl =
      Except.error { fmt := errMsgFmt c, arg1 := cl, arg2 := e } := by
  rw [getCategoryList_eq, h]

theorem getCategoryList_ok_iff {c : Category} {xs : List SVCRecord} :
    getCategoryList c o cl = Except.ok xs ↔ o (commandOf c) = Except.ok xs := by
  rw [getCategoryList_eq]
  cases h : o (commandOf c) <;> simp

theorem getCategoryList_err_iff {c : Category} {m : FailMsg} :
    getCategoryList c o cl = Except.error m ↔
      ∃ e, o (commandOf c) = Except.error e ∧
        m = { fmt := errMsgFmt c, arg1 := cl, arg2 := e } := by
  rw [getCategoryList_eq]
  cases h : o (commandOf c) with
  | ok xs => simp
  | error e =>
    simp only [Except.error.injEq]
    constructor
    · intro h2; exact ⟨e, rfl, h2.symm⟩
    · rintro ⟨e2, he2, hm⟩
      cases he2
      exact hm.symm

theorem catOfCmd_commandOf (c : Category) : catOfCmd (commandOf c) = some c := by
  cases c <;> rfl

theorem commandOf_injective : Function.Injective commandOf := by
  intro a b h
  have h2 := congrArg catOfCmd h
  rw [catOfCmd_commandOf, catOfCmd_commandOf] at h2
  exact Option.some.inj h2

theorem catOfLabel_labelOf (c : Category) : catOfLabel (labelOf c) = some c := by
  cases c <;> rfl

theorem labelOf_injective : Function.Injective labelOf := by
  intro a b h
  have h2 := congrArg catOfLabel h
  rw [catOfLabel_labelOf, catOfLabel_labelOf] at h2
  exact Option.some.inj h2

theorem catOfName_displayName (c : Category) :
    catOfName (displayName c) = some c := by
  cases c <;> rfl

theorem displayName_injective : Function.Injective displayName := by
  intro a b h
  have h2 := congrArg catOfName h
  rw [catOfName_displayName, catOfName_displayName] at h2
  exact Option.some.inj h2

theorem labelOf_ne_all (c : Category) : labelOf c ≠ "all" := by
  cases c <;> decide

theorem mem_chainOrder (c : Category) : c ∈ chainOrder := by
  cases c <;> decide

theorem chainOrder_nodup : chainOrder.Nodup := by decide

theorem labelOf_mem_fullLabels (c : Category) : labelOf c ∈ fullLabels := by
  cases c <;> decide

theorem initReport_field (c : Category) : initReport.field c = [] := by
  cases c <;> rfl

theorem field_setField_self (c : Category) (r : Report) (xs : List SVCRecord) :
    (setField c r xs).field c = xs := by
  cases c <;> rfl

theorem field_setField_ne {c c2 : Category} (h : c2 ≠ c) (r : Report)
    (xs : List SVCRecord) : (setField c r xs).field c2 = r.field c2 := by
  cases c <;> cases c2 <;> first | exact absurd rfl h | rfl

end Lemmas

section RunChainLemmas

open IBMSVCGatherInfo

variable (sub : List String) (o : Oracle) (cl : String)

theorem runChain_nil (r : Report) :
    runChain sub o cl [] r = ([], Except.ok r) := rfl

theorem runChain_cons (c : Category) (rest : List Category) (r : Report) :
    runChain sub o cl (c :: rest) r =
      if labelOf c ∈ sub then
        match getCategoryList c o cl with
        | Except.ok xs =>
          (commandOf c :: (runChain sub o cl rest (setField c r xs)).1,
           (runChain sub o cl rest (setField c r xs)).2)
        | Except.error m => ([commandOf c], Except.error m)
      else
        runChain sub o cl rest r := rfl

theorem runChain_cons_not_mem {c : Category} (h : labelOf c ∉ sub)
    (rest : List Category) (r : Report) :
    runChain sub o cl (c :: rest) r = runChain sub o cl rest r := by
  rw [runChain_cons, if_neg h]

theorem runChain_cons_ok {c : Category} (h : labelOf c ∈ sub)
    {xs : List SVCRecord} (hok : getCategoryList c o cl = Except.ok xs)
    (rest : List Category) (r : Report) :
    runChain sub o cl (c :: rest) r =
      (commandOf c :: (runChain sub o cl rest (setField c r xs)).1,
       (runChain sub o cl rest (setField c r xs)).2) := by
  rw [runChain_cons, if_pos h, hok]

theorem runChain_cons_err {c : Category} (h : labelOf c ∈ sub)
    {m : FailMsg} (herr : getCategoryList c o cl = Except.error m)
    (rest : List Category) (r : Report) :
    runChain sub o cl (c :: rest) r = ([commandOf c], Except.error m) := by
  rw [runChain_cons, if_pos h, herr]

/-- The trace of a chain run is always a prefix of the requested commands,
taken in chain order. -/
theorem runChain_trace_pre : ∀ (cats : List Category) (r : Report),
    (runChain sub o cl cats r).1 <+:
      (cats.filter fun c => decide (labelOf c ∈ sub)).map commandOf := by
  intro cats
  induction cats with
  | nil => intro r; simp [runChain_nil]
  | cons c rest ih =>
    intro r
    by_cases hm : labelOf c ∈ sub
    · cases hoc : getCategoryList c o cl with
      | ok xs =>
        rw [runChain_cons_ok sub o cl hm hoc]
        simp only [List.filter_cons, decide_eq_true_eq]
        rw [if_pos hm]
        simp only [List.map_cons]
        obtain ⟨t, ht⟩ := ih (setField c r xs)
        exact ⟨t, by rw [List.cons_append, ht]⟩
      | error m =>
        rw [runChain_cons_err sub o cl hm hoc]
        simp only [List.filter_cons, decide_eq_true_eq]
        rw [if_pos hm]
        simp only [List.map_cons]
        exact ⟨(rest.filter fun c2 => decide (labelOf c2 ∈ sub)).map commandOf,
               rfl⟩
    · rw [runChain_cons_not_mem sub o cl hm]
      simp only [List.filter_cons, decide_eq_true_eq]
      rw [if_neg hm]
      exact ih r

/-- On a successful run the trace is exactly the requested commands in
chain order. -/
theorem runChain_ok_trace : ∀ (cats : List Category) (r0 r : Report),
    (runChain sub o cl cats r0).2 = Except.ok r →
    (runChain sub o cl cats r0).1 =
      (cats.filter fun c => decide (labelOf c ∈ sub)).map commandOf := by
  intro cats
  induction cats with
  | nil => intro r0 r _; simp [runChain_nil]
  | cons c rest ih =>
    intro r0 r hr
    by_cases hm : labelOf c ∈ sub
    · cases hoc : getCategoryList c o cl with
      | ok xs =>
        rw [runChain_cons_ok sub o cl hm hoc] at hr ⊢
        simp only [List.filter_cons, decide_eq_true_eq]
        rw [if_pos hm]
        simp only [List.map_cons]
        exact congrArg _ (ih (setField c r0 xs) r hr)
      | error m =>
        rw [runChain_cons_err sub o cl hm hoc] at hr
        exact absurd hr (by simp)
    · rw [runChain_cons_not_mem sub o cl hm] at hr ⊢
      simp only [List.filter_cons, decide_eq_true_eq]
      rw [if_neg hm]
      exact ih r0 r hr

/-- On a successful run, every requested category's field holds exactly its
query's result, and every other field is untouched. -/
theorem runChain_ok_field : ∀ (cats : List Category), cats.Nodup →
    ∀ (r0 r : Report), (runChain sub o cl cats r0).2 = Except.ok r →
    ∀ c : Category,
      (c ∈ cats → labelOf c ∈ sub →
        ∃ xs, o (commandOf c) = Except.ok xs ∧ r.field c = xs) ∧
      (c ∉ cats ∨ labelOf c ∉ sub → r.field c = r0.field c) := by
  intro cats
  induction cats with
  | nil =>
    intro _ r0 r hr c
    rw [runChain_nil] at hr
    cases hr
    exact ⟨fun h => absurd h (List.not_mem_nil c), fun _ => rfl⟩
  | cons c0 rest ih =>
    intro hnd r0 r hr c
    have hnd2 := hnd
    rw [List.nodup_cons] at hnd2
    by_cases hm : labelOf c0 ∈ sub
    · cases hoc : getCategoryList c0 o cl with
      | ok xs =>
        rw [runChain_cons_ok sub o cl hm hoc] at hr
        have ihc := ih hnd2.2 (setField c0 r0 xs) r hr c
        by_cases hcc : c = c0
        · subst hcc
          constructor
          · intro _ _
            refine ⟨xs, (getCategoryList_ok_iff o cl).mp hoc, ?_⟩
            have h2 := ihc.2 (Or.inl hnd2.1)
            rw [h2, field_setField_self]
          · intro hor
            rcases hor with hn | hn
            · exact absurd (List.mem_cons_self c rest) hn
            · exact absurd hm hn
        · constructor
          · intro hmem hlab
            have : c ∈ rest := by
              rcases List.mem_cons.mp hmem with h | h
              · exact absurd h hcc
              · exact h
            exact ihc.1 this hlab
          · intro hor
            have hor2 : c ∉ rest ∨ labelOf c ∉ sub := by
              rcases hor with hn | hn
              · exact Or.inl fun h => hn (List.mem_cons_of_mem c0 h)
              · exact Or.inr hn
            rw [ihc.2 hor2, field_setField_ne hcc]
      | error m =>
        rw [runChain_cons_err sub o cl hm hoc] at hr
        exact absurd hr (by simp)
    · rw [runChain_cons_not_mem sub o cl hm] at hr
      have ihc := ih hnd2.2 r0 r hr c
      by_cases hcc : c = c0
      · subst hcc
        constructor
        · intro _ hlab
          exact absurd hlab hm
        · intro _
          exact ihc.2 (Or.inr hm)
      · constructor
        · intro hmem hlab
          have : c ∈ rest := by
            rcases List.mem_cons.mp hmem with h | h
            · exact absurd h hcc
            · exact h
          exact ihc.1 this hlab
        · intro hor
          have hor2 : c ∉ rest ∨ labelOf c ∉ sub := by
            rcases hor with hn | hn
            · exact Or.inl fun h => hn (List.mem_cons_of_mem c0 h)
            · exact Or.inr hn
          exact ihc.2 hor2

end RunChainLemmas

section ErrorLemmas

open IBMSVCGatherInfo

variable (sub : List String) (o : Oracle) (cl : String)

/-- A failing run's message comes from some requested category whose query
raised, wrapped in that category's error format with the cluster name. -/
theorem runChain_error_out : ∀ (cats : List Category) (r0 : Report)
    (m : FailMsg), (runChain sub o cl cats r0).2 = Except.error m →
    ∃ c, c ∈ cats ∧ labelOf c ∈ sub ∧
      ∃ e, o (commandOf c) = Except.error e ∧
        m = { fmt := errMsgFmt c, arg1 := cl, arg2 := e } := by
  intro cats
  induction cats with
  | nil =>
    intro r0 m hm
    rw [runChain_nil] at hm
    exact absurd hm (by simp)
  | cons c0 rest ih =>
    intro r0 m hm
    by_cases hmem : labelOf c0 ∈ sub
    · cases hoc : getCategoryList c0 o cl with
      | ok xs =>
        rw [runChain_cons_ok sub o cl hmem hoc] at hm
        obtain ⟨c, hc1, hc2, e, he1, he2⟩ := ih (setField c0 r0 xs) m hm
        exact ⟨c, List.mem_cons_of_mem c0 hc1, hc2, e, he1, he2⟩
      | error m0 =>
        rw [runChain_cons_err sub o cl hmem hoc] at hm
        have hm0 : m0 = m := by
          have := hm
          simp only at this
          exact Except.error.inj this
        subst hm0
        obtain ⟨e, he1, he2⟩ := (getCategoryList_err_iff o cl).mp hoc
        exact ⟨c0, List.mem_cons_self c0 rest, hmem, e, he1, he2⟩
    · rw [runChain_cons_not_mem sub o cl hmem] at hm
      obtain ⟨c, hc1, hc2, e, he1, he2⟩ := ih r0 m hm
      exact ⟨c, List.mem_cons_of_mem c0 hc1, hc2, e, he1, he2⟩

/-- If some requested category's query raises, the run fails with the first
such category's message, and the trace stops at that category: the
requested categories before it in the chain, then its own command, and
nothing after. -/
theorem runChain_error_first : ∀ (cats : List Category) (r0 : Report),
    (∃ c, c ∈ cats ∧ labelOf c ∈ sub ∧
      ∃ e, o (commandOf c) = Except.error e) →
    ∃ pre cb post e2, cats = pre ++ cb :: post ∧ labelOf cb ∈ sub ∧
      o (commandOf cb) = Except.error e2 ∧
      runChain sub o cl cats r0 =
        ((pre.filter fun c2 => decide (labelOf c2 ∈ sub)).map commandOf
          ++ [commandOf cb],
         Except.error { fmt := errMsgFmt cb, arg1 := cl, arg2 := e2 }) := by
  intro cats
  induction cats with
  | nil =>
    intro r0 h
    obtain ⟨c, hc, _⟩ := h
    exact absurd hc (List.not_mem_nil c)
  | cons c0 rest ih =>
    intro r0 h
    by_cases hmem : labelOf c0 ∈ sub
    · cases hoc : o (commandOf c0) with
      | error e0 =>
        refine ⟨[], c0, rest, e0, rfl, hmem, hoc, ?_⟩
        rw [runChain_cons_err sub o cl hmem (getCategoryList_err o cl hoc)]
        simp
      | ok xs =>
        have hrest : ∃ c, c ∈ rest ∧ labelOf c ∈ sub ∧
            ∃ e, o (commandOf c) = Except.error e := by
          obtain ⟨c, hc1, hc2, e, he⟩ := h
          rcases List.mem_cons.mp hc1 with hceq | hcr
          · subst hceq
            rw [hoc] at he
            exact absurd he (by simp)
          · exact ⟨c, hcr, hc2, e, he⟩
        obtain ⟨pre, cb, post, e2, hcats, hcb1, hcb2, hrun⟩ :=
          ih (setField c0 r0 xs) hrest
        refine ⟨c0 :: pre, cb, post, e2, by simp [hcats], hcb1, hcb2, ?_⟩
        rw [runChain_cons_ok sub o cl hmem (getCategoryList_ok o cl hoc),
            hrun]
        simp only [List.filter_cons, decide_eq_true_eq]
        rw [if_pos hmem]
        simp
    · rw [runChain_cons_not_mem sub o cl hmem]
      have hrest : ∃ c, c ∈ rest ∧ labelOf c ∈ sub ∧
          ∃ e, o (commandOf c) = Except.error e := by
        obtain ⟨c, hc1, hc2, e, he⟩ := h
        rcases List.mem_cons.mp hc1 with hceq | hcr
        · subst hceq; exact absurd hc2 hmem
        · exact ⟨c, hcr, hc2, e, he⟩
      obtain ⟨pre, cb, post, e2, hcats, hcb1, hcb2, hrun⟩ := ih r0 hrest
      refine ⟨c0 :: pre, cb, post, e2, by simp [hcats], hcb1, hcb2, ?_⟩
      rw [hrun]
      simp only [List.filter_cons, decide_eq_true_eq]
      rw [if_neg hmem]

/-- The dispatch chain only consults subset membership: two subsets with
the same members run identically. -/
theorem runChain_congr {sub2 : List String}
    (hmm : ∀ s, s ∈ sub ↔ s ∈ sub2) : ∀ (cats : List Category) (r : Report),
    runChain sub o cl cats r = runChain sub2 o cl cats r := by
  intro cats
  induction cats with
  | nil => intro r; rfl
  | cons c rest ih =>
    intro r
    by_cases hm : labelOf c ∈ sub
    · have hm2 : labelOf c ∈ sub2 := (hmm _).mp hm
      cases hoc : getCategoryList c o cl with
      | ok xs =>
        rw [runChain_cons_ok sub o cl hm hoc,
            runChain_cons_ok sub2 o cl hm2 hoc, ih]
      | error m =>
        rw [runChain_cons_err sub o cl hm hoc,
            runChain_cons_err sub2 o cl hm2 hoc]
    · have hm2 : labelOf c ∉ sub2 := fun h => hm ((hmm _).mpr h)
      rw [runChain_cons_not_mem sub o cl hm,
          runChain_cons_not_mem sub2 o cl hm2, ih]

end ErrorLemmas

section ExpandLemmas

open IBMSVCGatherInfo

theorem expandSubset_eq_full {sub : List String}
    (h : sub = [] ∨ "all" ∈ sub) : expandSubset sub = fullLabels := by
  unfold expandSubset
  rw [if_pos]
  rcases h with h | h
  · exact Or.inl (by rw [h]; rfl)
  · exact Or.inr h

theorem expandSubset_eq_self {sub : List String}
    (h : ¬(sub = [] ∨ "all" ∈ sub)) : expandSubset sub = sub := by
  unfold expandSubset
  rw [if_neg]
  intro hor
  apply h
  rcases hor with h1 | h1
  · exact Or.inl (List.length_eq_zero.mp h1)
  · exact Or.inr h1

theorem expandSubset_fullLabels : expandSubset fullLabels = fullLabels := by
  decide

theorem chainOrder_filter_full :
    (chainOrder.filter fun c => decide (labelOf c ∈ fullLabels)) =
      chainOrder := by
  decide

theorem displayName_infix_fmt (c : Category) :
    (displayName c).toList <:+: (errMsgFmt c).toList := by
  cases c <;> decide

end ExpandLemmas

open IBMSVCGatherInfo in
/-- C1: for every `gather_subset` that is empty or contains `'all'`, the
run (trace and report alike) is identical to the run with all 15 category
labels listed explicitly, and on success every one of the 15 fields is
populated from its category's query. -/
theorem gather_all_eq_full (sub : List String) (o : Oracle) (cl : String)
    (h : sub = [] ∨ "all" ∈ sub) :
    IBMSVCGatherInfo.apply sub o cl = IBMSVCGatherInfo.apply fullLabels o cl ∧
    ∀ r, (IBMSVCGatherInfo.apply sub o cl).2 = Except.ok r →
      ∀ (c : Category) (xs : List SVCRecord),
        o (commandOf c) = Except.ok xs → r.field c = xs := by
  have hex : expandSubset sub = fullLabels := expandSubset_eq_full h
  constructor
  · unfold IBMSVCGatherInfo.apply
    rw [hex, expandSubset_fullLabels]
  · intro r hr c xs hxs
    unfold IBMSVCGatherInfo.apply at hr
    rw [hex] at hr
    obtain ⟨xs2, hxs2, hfield⟩ :=
      (runChain_ok_field fullLabels o cl chainOrder chainOrder_nodup
        initReport r hr c).1 (mem_chainOrder c) (labelOf_mem_fullLabels c)
    rw [hxs] at hxs2
    rw [hfield, Except.ok.inj hxs2]

/-- C1 witness: requesting `["all"]` is the run with the full list. -/
theorem gather_all_eq_full_witness :
    IBMSVCGatherInfo.apply ["all"] okOracle "cluster" =
      IBMSVCGatherInfo.apply IBMSVCGatherInfo.fullLabels okOracle "cluster" :=
  (gather_all_eq_full ["all"] okOracle "cluster" (Or.inr (by decide))).1

open IBMSVCGatherInfo in
/-- C3: the dispatcher maps each category label to exactly its fixed
read-only command, and on success the category's report field is the
query's record sequence unchanged. -/
theorem dispatch_commands_passthrough (sub : List String) (o : Oracle)
    (cl : String) :
    (commandOf .vol = "lsvdisk" ∧ commandOf .pool = "lsmdiskgrp" ∧
     commandOf .node = "lsnode" ∧ commandOf .iog = "lsiogrp" ∧
     commandOf .host = "lshost" ∧ commandOf .hc = "lshostcluster" ∧
     commandOf .fc = "lsfabric" ∧ commandOf .fcport = "lsportfc" ∧
     commandOf .targetportfc = "lstargetportfc" ∧
     commandOf .iscsiport = "lsportip" ∧ commandOf .fcmap = "lsfcmap" ∧
     commandOf .fcconsistgrp = "lsfcconsistgrp" ∧
     commandOf .vdiskcopy = "lsvdiskcopy" ∧ commandOf .array = "lsarray" ∧
     commandOf .system = "lssystem") ∧
    ∀ (c : Category) (r : Report) (xs : List SVCRecord),
      labelOf c ∈ expandSubset sub →
      (IBMSVCGatherInfo.apply sub o cl).2 = Except.ok r →
      o (commandOf c) = Except.ok xs → r.field c = xs := by
  refine ⟨by decide, ?_⟩
  intro c r xs hreq hr hxs
  unfold IBMSVCGatherInfo.apply at hr
  obtain ⟨xs2, hxs2, hfield⟩ :=
    (runChain_ok_field (expandSubset sub) o cl chainOrder chainOrder_nodup
      initReport r hr c).1 (mem_chainOrder c) hreq
  rw [hxs] at hxs2
  rw [hfield, Except.ok.inj hxs2]

/-- C3 witness: with a one-record oracle and subset `["vol"]`, the Volumes
field is exactly the oracle's answer for `lsvdisk`. -/
theorem dispatch_commands_passthrough_witness :
    Report.field { initReport with Volumes := [[("id", "1")]] } Category.vol
      = [[("id", "1")]] :=
  (dispatch_commands_passthrough ["vol"] oneRecOracle "cluster").2
    Category.vol { initReport with Volumes := [[("id", "1")]] }
    [[("id", "1")]] (by decide) rfl rfl

open IBMSVCGatherInfo in
/-- C4: a singleton `gather_subset` (one category label, never `'all'`)
yields, on success, that category's field populated from its query and all
14 other fields equal to the empty sequence. -/
theorem single_category_frame (c : Category) (o : Oracle) (cl : String)
    (r : Report)
    (h : (IBMSVCGatherInfo.apply [labelOf c] o cl).2 = Except.ok r) :
    (∃ xs, o (commandOf c) = Except.ok xs ∧ r.field c = xs) ∧
    ∀ c2 : Category, c2 ≠ c → r.field c2 = [] := by
  have hex : expandSubset [labelOf c] = [labelOf c] := by
    apply expandSubset_eq_self
    intro hor
    rcases hor with h1 | h1
    · exact absurd h1 (by simp)
    · rw [List.mem_singleton] at h1
      exact labelOf_ne_all c h1.symm
  unfold IBMSVCGatherInfo.apply at h
  rw [hex] at h
  have hk := runChain_ok_field [labelOf c] o cl chainOrder chainOrder_nodup
    initReport r h
  constructor
  · exact (hk c).1 (mem_chainOrder c) (List.mem_singleton_self _)
  · intro c2 hne
    have hnot : labelOf c2 ∉ [labelOf c] := by
      intro hmem
      rw [List.mem_singleton] at hmem
      exact hne (labelOf_injective hmem)
    rw [(hk c2).2 (Or.inr hnot), initReport_field]

/-- C4 witness: subset `["pool"]` against a one-record oracle populates
Pools and leaves the other fields empty. -/
theorem single_category_frame_witness :
    ((IBMSVCGatherInfo.apply [labelOf Category.pool] oneRecOracle
        "cluster").2 =
      Except.ok { initReport with Pools := [[("id", "1")]] }) ∧
    ((∃ xs, oneRecOracle (commandOf Category.pool) = Except.ok xs ∧
        Report.field { initReport with Pools := [[("id", "1")]] }
          Category.pool = xs) ∧
     ∀ c2 : Category, c2 ≠ Category.pool →
       Report.field { initReport with Pools := [[("id", "1")]] } c2 = []) :=
  ⟨rfl, single_category_frame Category.pool oneRecOracle "cluster"
    { initReport with Pools := [[("id", "1")]] } rfl⟩

open IBMSVCGatherInfo in
/-- C6: every successful invocation exits with a report exposing exactly
the 15 fixed fields, in the fixed order of the `exit_json` call, each bound
to a record sequence. -/
theorem report_exposes_15_fields (sub : List String) (o : Oracle)
    (cl : String) (r : Report)
    (_h : (IBMSVCGatherInfo.apply sub o cl).2 = Except.ok r) :
    (Report.toFields r).map Prod.fst = reportFieldNames ∧
    (Report.toFields r).length = 15 :=
  ⟨rfl, rfl⟩

/-- C6 witness: a concrete successful run exposes the 15 field names. -/
theorem report_exposes_15_fields_witness :
    ((IBMSVCGatherInfo.apply ["vol"] okOracle "cluster").2 =
      Except.ok initReport) ∧
    (Report.toFields initReport).map Prod.fst = reportFieldNames :=
  ⟨rfl,
   (report_exposes_15_fields ["vol"] okOracle "cluster" initReport rfl).1⟩

open IBMSVCGatherInfo in
/-- C2: when any requested category's query raises, the run never reaches
the success exit, it fails with the message of the first failing requested
category in the dispatch chain, its trace is exactly the requested commands
up to and including that category, and no category after it in the chain is
queried. -/
theorem failure_aborts (sub : List String) (o : Oracle) (cl : String)
    (c : Category) (e : String)
    (hreq : labelOf c ∈ expandSubset sub)
    (hfail : o (commandOf c) = Except.error e) :
    (∀ r, (IBMSVCGatherInfo.apply sub o cl).2 ≠ Except.ok r) ∧
    ∃ pre cb post e2,
      chainOrder = pre ++ cb :: post ∧
      labelOf cb ∈ expandSubset sub ∧
      o (commandOf cb) = Except.error e2 ∧
      (IBMSVCGatherInfo.apply sub o cl).2 =
        Except.error { fmt := errMsgFmt cb, arg1 := cl, arg2 := e2 } ∧
      (IBMSVCGatherInfo.apply sub o cl).1 =
        (pre.filter fun c2 =>
          decide (labelOf c2 ∈ expandSubset sub)).map commandOf
          ++ [commandOf cb] ∧
      ∀ c2 ∈ post, commandOf c2 ∉ (IBMSVCGatherInfo.apply sub o cl).1 := by
  obtain ⟨pre, cb, post, e2, hchain, hcb1, hcb2, hrun⟩ :=
    runChain_error_first (expandSubset sub) o cl chainOrder initReport
      ⟨c, mem_chainOrder c, hreq, e, hfail⟩
  have happ : IBMSVCGatherInfo.apply sub o cl =
      ((pre.filter fun c2 =>
        decide (labelOf c2 ∈ expandSubset sub)).map commandOf
        ++ [commandOf cb],
       Except.error { fmt := errMsgFmt cb, arg1 := cl, arg2 := e2 }) := hrun
  have hnd : (pre ++ cb :: post).Nodup := by
    rw [← hchain]; exact chainOrder_nodup
  have hdisj : pre.Disjoint (cb :: post) := List.disjoint_of_nodup_append hnd
  have hcbpost : cb ∉ post :=
    (List.nodup_cons.mp (hnd.of_append_right)).1
  refine ⟨?_, pre, cb, post, e2, hchain, hcb1, hcb2, ?_, ?_, ?_⟩
  · intro r hr
    rw [happ] at hr
    exact absurd hr (by simp)
  · rw [happ]
  · rw [happ]
  · intro c2 hc2 hmem
    rw [happ] at hmem
    rcases List.mem_append.mp hmem with h1 | h1
    · obtain ⟨c3, hc3, he3⟩ := List.mem_map.mp h1
      have : c3 = c2 := commandOf_injective he3
      subst this
      exact hdisj (List.mem_of_mem_filter hc3) (List.mem_cons_of_mem cb hc2)
    · rw [List.mem_singleton] at h1
      have : c2 = cb := commandOf_injective h1
      subst this
      exact hcbpost hc2

/-- C2 witness: with `lsnode` raising, a run requesting node never
succeeds. -/
theorem failure_aborts_witness :
    (labelOf Category.node ∈
      IBMSVCGatherInfo.expandSubset ["node", "pool"]) ∧
    ∀ r, (IBMSVCGatherInfo.apply ["node", "pool"] nodeFailOracle
      "cluster").2 ≠ Except.ok r :=
  ⟨by decide,
   (failure_aborts ["node", "pool"] nodeFailOracle "cluster" Category.node
     "boom" (by decide) rfl).1⟩

open IBMSVCGatherInfo in
/-- C5: every failure message handed to the framework is the failing
category's message tuple: its format string embeds that category's name
(a string naming the category uniquely), and the tuple carries the
configured cluster name and the underlying error text. -/
theorem failure_message_content (sub : List String) (o : Oracle)
    (cl : String) (m : FailMsg)
    (h : (IBMSVCGatherInfo.apply sub o cl).2 = Except.error m) :
    ∃ c e, labelOf c ∈ expandSubset sub ∧
      o (commandOf c) = Except.error e ∧
      m = { fmt := errMsgFmt c, arg1 := cl, arg2 := e } ∧
      (displayName c).toList <:+: m.fmt.toList ∧
      m.arg1 = cl ∧ m.arg2 = e ∧
      Function.Injective displayName := by
  unfold IBMSVCGatherInfo.apply at h
  obtain ⟨c, _, hreq, e, he, hm⟩ :=
    runChain_error_out (expandSubset sub) o cl chainOrder initReport m h
  subst hm
  exact ⟨c, e, hreq, he, rfl, displayName_infix_fmt c, rfl, rfl,
    displayName_injective⟩

/-- C5 witness: the `lsnode` failure yields the Nodes message tuple with
cluster name and error text. -/
theorem failure_message_content_witness :
    ((IBMSVCGatherInfo.apply ["node"] nodeFailOracle "cluster").2 =
      Except.error nodeBoomMsg) ∧
    ∃ c e, labelOf c ∈ IBMSVCGatherInfo.expandSubset ["node"] ∧
      nodeFailOracle (commandOf c) = Except.error e ∧
      nodeBoomMsg = { fmt := errMsgFmt c, arg1 := "cluster", arg2 := e } ∧
      (displayName c).toList <:+: nodeBoomMsg.fmt.toList ∧
      nodeBoomMsg.arg1 = "cluster" ∧ nodeBoomMsg.arg2 = e ∧
      Function.Injective displayName :=
  ⟨rfl, failure_message_content ["node"] nodeFailOracle "cluster"
    nodeBoomMsg rfl⟩

/-- C7 counterexample: with every query succeeding, requesting `'all'` does
NOT issue the queries in the order of the expansion list
(vol, pool, node, iog, host, hc, fc, fcport, iscsiport, fcmap,
fcconsistgrp, vdiskcopy, targetportfc, array, system): the dispatch chain
tests `targetportfc` before `fcport`, so `lstargetportfc` is issued eighth,
before `lsportfc`. -/
theorem query_order_claim_cex :
    (IBMSVCGatherInfo.apply ["all"] okOracle "cluster").1 ≠
      ["lsvdisk", "lsmdiskgrp", "lsnode", "lsiogrp", "lshost",
       "lshostcluster", "lsfabric", "lsportfc", "lsportip", "lsfcmap",
       "lsfcconsistgrp", "lsvdiskcopy", "lstargetportfc", "lsarray",
       "lssystem"] := by
  decide

open IBMSVCGatherInfo in
/-- C7 amended: categories are queried strictly one at a time in the single
fixed order of the dispatch chain (vol, pool, node, iog, host, hc, fc,
targetportfc, fcport, iscsiport, fcmap, fcconsistgrp, vdiskcopy, array,
system): every trace is an initial segment of the requested commands in
that order, a successful run issues exactly those, and requesting `'all'`
(or an empty subset) issues all 15 in that order. -/
theorem queries_sequential_code_order (sub : List String) (o : Oracle)
    (cl : String) :
    (IBMSVCGatherInfo.apply sub o cl).1 <+:
      ((chainOrder.filter fun c =>
        decide (labelOf c ∈ expandSubset sub)).map commandOf) ∧
    (∀ r, (IBMSVCGatherInfo.apply sub o cl).2 = Except.ok r →
      (IBMSVCGatherInfo.apply sub o cl).1 =
        (chainOrder.filter fun c =>
          decide (labelOf c ∈ expandSubset sub)).map commandOf) ∧
    ((sub = [] ∨ "all" ∈ sub) →
      ∀ r, (IBMSVCGatherInfo.apply sub o cl).2 = Except.ok r →
        (IBMSVCGatherInfo.apply sub o cl).1 = chainOrder.map commandOf) := by
  refine ⟨runChain_trace_pre (expandSubset sub) o cl chainOrder initReport,
    fun r hr => runChain_ok_trace (expandSubset sub) o cl chainOrder
      initReport r hr, ?_⟩
  intro h r hr
  unfold IBMSVCGatherInfo.apply at hr ⊢
  rw [expandSubset_eq_full h] at hr ⊢
  rw [runChain_ok_trace fullLabels o cl chainOrder initReport r hr,
      chainOrder_filter_full]

/-- C7 amended witness: an all-success run on `'all'` issues exactly the 15
commands in dispatch-chain order. -/
theorem queries_sequential_code_order_witness :
    (IBMSVCGatherInfo.apply ["all"] okOracle "cluster").1 =
      IBMSVCGatherInfo.chainOrder.map commandOf :=
  (queries_sequential_code_order ["all"] okOracle "cluster").2.2
    (Or.inr (by decide)) initReport rfl

open IBMSVCGatherInfo in
/-- C8: each category's read command appears at most once in any run's
trace: no query is ever retried, whether it succeeds or fails. -/
theorem query_at_most_once (sub : List String) (o : Oracle) (cl : String)
    (c : Category) :
    (IBMSVCGatherInfo.apply sub o cl).1.count (commandOf c) ≤ 1 := by
  have hsub : List.Sublist (IBMSVCGatherInfo.apply sub o cl).1
      ((chainOrder.filter fun c2 =>
        decide (labelOf c2 ∈ expandSubset sub)).map commandOf) :=
    (runChain_trace_pre (expandSubset sub) o cl chainOrder
      initReport).sublist
  have hnd : ((chainOrder.filter fun c2 =>
      decide (labelOf c2 ∈ expandSubset sub)).map commandOf).Nodup :=
    (chainOrder_nodup.filter _).map commandOf_injective
  exact le_trans (hsub.count_le (commandOf c))
    (List.nodup_iff_count_le_one.mp hnd (commandOf c))

open IBMSVCGatherInfo in
/-- C9: the run depends only on the set of labels in `gather_subset`: two
lists with the same members (any order, any multiplicity) produce the same
trace and the same outcome, and any list containing `'all'` runs like
`['all']`. -/
theorem subset_set_semantics (o : Oracle) (cl : String) :
    (∀ l1 l2 : List String, (∀ s ∈ l1, s ∈ l2) → (∀ s ∈ l2, s ∈ l1) →
      IBMSVCGatherInfo.apply l1 o cl = IBMSVCGatherInfo.apply l2 o cl) ∧
    (∀ l : List String, "all" ∈ l →
      IBMSVCGatherInfo.apply l o cl = IBMSVCGatherInfo.apply ["all"] o cl) := by
  constructor
  · intro l1 l2 h12 h21
    have hiff : ∀ s, s ∈ l1 ↔ s ∈ l2 := fun s => ⟨h12 s, h21 s⟩
    by_cases htrig : l1 = [] ∨ "all" ∈ l1
    · have htrig2 : l2 = [] ∨ "all" ∈ l2 := by
        rcases htrig with h | h
        · left
          rw [List.eq_nil_iff_forall_not_mem]
          intro s hs
          have := (hiff s).mpr hs
          rw [h] at this
          exact List.not_mem_nil s this
        · exact Or.inr ((hiff _).mp h)
      unfold IBMSVCGatherInfo.apply
      rw [expandSubset_eq_full htrig, expandSubset_eq_full htrig2]
    · have htrig2 : ¬(l2 = [] ∨ "all" ∈ l2) := by
        intro hor
        apply htrig
        rcases hor with h | h
        · left
          rw [List.eq_nil_iff_forall_not_mem]
          intro s hs
          have := (hiff s).mp hs
          rw [h] at this
          exact List.not_mem_nil s this
        · exact Or.inr ((hiff _).mpr h)
      unfold IBMSVCGatherInfo.apply
      rw [expandSubset_eq_self htrig, expandSubset_eq_self htrig2]
      exact runChain_congr l1 o cl hiff chainOrder initReport
  · intro l hall
    unfold IBMSVCGatherInfo.apply
    rw [expandSubset_eq_full (Or.inr hall),
        expandSubset_eq_full (Or.inr (List.mem_singleton_self "all"))]

/-- C9 witness: reordering and duplicating labels, or adding labels beside
`'all'`, leaves the run unchanged. -/
theorem subset_set_semantics_witness :
    IBMSVCGatherInfo.apply ["pool", "vol"] okOracle "cluster" =
      IBMSVCGatherInfo.apply ["vol", "pool", "vol"] okOracle "cluster" ∧
    IBMSVCGatherInfo.apply ["vol", "all"] okOracle "cluster" =
      IBMSVCGatherInfo.apply ["all"] okOracle "cluster" :=
  ⟨(subset_set_semantics okOracle "cluster").1 ["pool", "vol"]
      ["vol", "pool", "vol"] (by decide) (by decide),
   (subset_set_semantics okOracle "cluster").2 ["vol", "all"] (by decide)⟩

/-- C10: the required `name` parameter and the `state` parameter have no
effect: two runs differing only in `name` and/or `state`, against the same
REST responses, produce identical traces and identical outcomes (reports
and failure messages alike). -/
theorem name_state_no_effect (p1 p2 : ModuleParams) (o : Oracle)
    (hcl : p1.clustername = p2.clustername)
    (hgs : p1.gather_subset = p2.gather_subset) :
    runModule p1 o = runModule p2 o := by
  unfold runModule
  rw [hcl, hgs]

/-- C10 witness: changing only `name` leaves the run unchanged. -/
theorem name_state_no_effect_witness :
    runModule
      { name := "alpha", state := "info", clustername := "cluster",
        gather_subset := ["vol"] } okOracle =
    runModule
      { name := "beta", state := "info", clustername := "cluster",
        gather_subset := ["vol"] } okOracle :=
  name_state_no_effect
    { name := "alpha", state := "info", clustername := "cluster",
      gather_subset := ["vol"] }
    { name := "beta", state := "info", clustername := "cluster",
      gather_subset := ["vol"] } okOracle rfl rfl
